import Mathlib

/-!
# MidiOFX: the MIDI-to-parameter bridge of `src/MidiOFX.cpp`

A shallow embedding of the plugin's live core: device enumeration
(`getDevices`, the option list of `describeInContext`), the port session
(`openInput`, `changedParam`) and the message router (`inputHandler`,
`setInputValue`).

Conventions of the embedding.

* The instance is a record `MidiPlugin`; every member function takes the
  record and returns the updated record.
* Host parameters (`IntParam`, `ChoiceParam`) are the host's stored values
  (section 1 of the specification: "get stored value", "set stored value"):
  `getValue` reads the stored integer, `setValue` overwrites it. The host
  itself is not part of the sources; the field `setValueCalls` of the instance
  records every value the plugin hands to `_paramsValue[i]->setValue`, a fact
  of the plugin's code alone, whatever the host then stores.
* The persistent message of the host is `Option String`: `none` after
  `clearPersistentMessage`, `some text` after `setPersistentMessage`.
* `std::vector<unsigned char>` is `List (Fin 256)`; `at(i)` is `message[i]?`,
  whose `none` stands for the `std::out_of_range` it would throw.
* The transport handle `RtMidiIn` belongs to an external library; it is taken
  as a parameter `Transport σ`. The field `calls` of the instance records, in
  program order, every call the plugin makes on `_midiIn`.
* `std::string` is `String`; the parameter names are ASCII, so positions in
  bytes and in characters agree.
* Writes to `std::cout` are not modelled.
-/

namespace MidiOFX

/-! ## Constants -/

/-- Name of the device-selection parameter (`#define kParamPort`). -/
def kParamPort : String := "port"

/-- Name stem of the key parameters (`#define kParamMidiInput`). -/
def kParamMidiInput : String := "input"

/-- Name stem of the value parameters (`#define kParamMidiInputValue`). -/
def kParamMidiInputValue : String := "value"

/-- Lower end of the declared parameter range (`#define MIDI_MIN`). -/
abbrev MIDI_MIN : Int := 0

/-- Upper end of the declared parameter range (`#define MIDI_MAX`). -/
abbrev MIDI_MAX : Int := 127

/-- Number of key/value parameter pairs (`#define MIDI_PARAMS`). -/
abbrev MIDI_PARAMS : Nat := 25

/-- An `unsigned char`. -/
abbrev UChar : Type := Fin 256

/-- Decimal rendering of an unsigned number (`istring`, through a
`std::stringstream`). -/
def istring (i : Nat) : String := toString i

/-! ## The transport -/

/-- Calls made on the transport handle `_midiIn`. -/
inductive MidiCall where
  | getPortCount : MidiCall
  | isPortOpen : MidiCall
  | closePort : MidiCall
  | openPort (portNumber : Nat) : MidiCall
  deriving DecidableEq, Repr

/-- Modelled from the spec: the transport handle `RtMidiIn` (declared in
`RtMidi.h`, an external library that is not part of the sources). Section 6 of
the specification lists what the core consumes from it: port enumeration
(count and names), `openPort(index)` which succeeds or fails, `closePort()` and
`isOpen()`. The handle's state is an arbitrary type `σ`; a failed open is a
resulting state that is not open. -/
structure Transport (σ : Type) where
  /-- Number of input ports (`getPortCount`). -/
  getPortCount : σ → Nat
  /-- Name of a port (`getPortName`). -/
  getPortName : σ → Nat → String
  /-- Whether a port is open (`isPortOpen`). -/
  isPortOpen : σ → Bool
  /-- Attempt to open a port by number (`openPort`). -/
  openPort : σ → Nat → σ
  /-- Close the open port (`closePort`). -/
  closePort : σ → σ

/-- Conversion of an `int` argument to the `unsigned int` parameter of
`RtMidiIn::openPort`. -/
def toUnsigned (port : Int) : Nat := (port % 4294967296).toNat

/-! ## The plugin instance -/

/-- Members of `class MidiPlugin` (the unused `_dstClip` apart), the
persistent message the host shows for the instance, and the records of the
calls made on `_midiIn` and of the calls of `setValue` on the value
parameters. -/
structure MidiPlugin (σ : Type) where
  /-- The transport handle `_midiIn`. -/
  midiIn : σ
  /-- Stored value of the choice parameter `_devices`. -/
  devices : Int
  /-- Stored values of the key parameters `_paramsKey[i]`. -/
  paramsKey : Fin MIDI_PARAMS → Int
  /-- Stored values of the value parameters `_paramsValue[i]`. -/
  paramsValue : Fin MIDI_PARAMS → Int
  /-- The persistent message currently shown by the host. -/
  persistentMessage : Option String
  /-- Calls made on `_midiIn` so far, oldest first. -/
  calls : List MidiCall
  /-- Calls `_paramsValue[i]->setValue(v)` made so far, oldest first, as pairs
  `(i, v)`. -/
  setValueCalls : List (Fin MIDI_PARAMS × Int)

variable {σ : Type}

/-- Host operation `clearPersistentMessage()`. -/
def clearPersistentMessage (p : MidiPlugin σ) : MidiPlugin σ :=
  { p with persistentMessage := none }

/-- Host operation `setPersistentMessage(Message::eMessageWarning, "", text)`. -/
def setPersistentMessage (p : MidiPlugin σ) (text : String) : MidiPlugin σ :=
  { p with persistentMessage := some text }

/-- Appends one call on `_midiIn` to the record of calls. -/
def record (p : MidiPlugin σ) (c : MidiCall) : MidiPlugin σ :=
  { p with calls := p.calls ++ [c] }

/-! ## Message router -/

/-- One iteration of the loop of `setInputValue`: read `_paramsKey[i]`, and on
a match call `_paramsValue[i]->setValue(value)`, which overwrites the stored
value. -/
def setInputValueStep (key value : Int) (p : MidiPlugin σ) (i : Fin MIDI_PARAMS) :
    MidiPlugin σ :=
  let hasKey := p.paramsKey i
  if hasKey = key then
    { p with
      paramsValue := Function.update p.paramsValue i value
      setValueCalls := p.setValueCalls ++ [(i, value)] }
  else
    p

/-- Member `MidiPlugin::setInputValue`: the loop `for i in 0 .. MIDI_PARAMS-1`. -/
def setInputValue (p : MidiPlugin σ) (key value : Int) : MidiPlugin σ :=
  (List.finRange MIDI_PARAMS).foldl (setInputValueStep key value) p

/-- Callback `MidiPlugin::inputHandler` (the unused `deltatime` apart);
`userData` is the instance. The result is `none` when `at` throws. -/
def inputHandler (message : List UChar) (userData : MidiPlugin σ) :
    Option (MidiPlugin σ) :=
  if message.length < 3 then
    some userData
  else
    match message[1]?, message[2]? with
    | some k, some v =>
      let key : Int := (k.val : Int)
      let value : Int := (v.val : Int)
      some (setInputValue userData key value)
    | _, _ => none

/-! ## Parameter names -/

/-- Library function `std::string::rfind(what, pos)`: the highest position
`i ≤ pos` at which `what` occurs in `str`, `none` standing for `npos`. -/
def rfind (str what : String) (pos : Nat) : Option Nat :=
  if what.length ≤ str.length then
    ((List.range (min pos (str.length - what.length) + 1)).reverse).find?
      (fun i => (str.data.drop i).take what.length == what.data)
  else
    none

/-- Member `MidiPlugin::startsWith`: `str.rfind(what, 0) == 0`. -/
def startsWith (str what : String) : Bool :=
  rfind str what 0 == some 0

/-! ## Port session -/

/-- Member `MidiPlugin::openInput`. -/
def openInput (T : Transport σ) (p : MidiPlugin σ) (port : Int) : MidiPlugin σ :=
  let ports := T.getPortCount p.midiIn
  let p := record p MidiCall.getPortCount
  if ports = 0 then
    setPersistentMessage p "No MIDI input found"
  else
    let wasOpen := T.isPortOpen p.midiIn
    let p := record p MidiCall.isPortOpen
    let p :=
      if wasOpen then
        record { p with midiIn := T.closePort p.midiIn } MidiCall.closePort
      else
        p
    -- get port from knob
    let port := if port = -1 then p.devices else port
    let p :=
      record { p with midiIn := T.openPort p.midiIn (toUnsigned port) }
        (MidiCall.openPort (toUnsigned port))
    let nowOpen := T.isPortOpen p.midiIn
    let p := record p MidiCall.isPortOpen
    if !nowOpen then
      setPersistentMessage p "MIDI input not connected"
    else
      p

/-- Member `MidiPlugin::changedParam` (the unused `args` apart). -/
def changedParam (T : Transport σ) (p : MidiPlugin σ) (paramName : String) :
    MidiPlugin σ :=
  let p := clearPersistentMessage p
  if startsWith paramName kParamMidiInput then
    let isOpen := T.isPortOpen p.midiIn
    let p := record p MidiCall.isPortOpen
    if !isOpen then
      setPersistentMessage p "MIDI input not connected"
    else
      p
  else if paramName = kParamPort then
    openInput T p (-1)
  else
    p

/-! ## Device enumeration -/

/-- Function `getDevices`; `midi` is the throwaway handle it constructs. -/
def getDevices (T : Transport σ) (midi : σ) : List String :=
  let ports := T.getPortCount midi
  (List.range ports).foldl (fun result i => result ++ [T.getPortName midi i]) []

/-- The options appended to the choice parameter `kParamPort` by
`MidiPluginFactory::describeInContext`, in the order of `appendOption`. -/
def describeInContext (T : Transport σ) (midi : σ) : List String :=
  let devices := getDevices T midi
  devices.foldl
    (fun options deviceName =>
      if deviceName ≠ "" then options ++ [deviceName] else options)
    []

/-! ## A concrete transport -/

/-- Modelled from the spec: a state of the transport of section 6. The ports
are listed by name, their position being the port index; `refused` lists the
indices the hardware declines to open; `connected` is the index of the open
port, if any. -/
structure RtMidiIn where
  /-- Names of the input ports, by port index. -/
  portNames : List String
  /-- Port indices whose open attempt fails. -/
  refused : List Nat
  /-- The port that is open, if any. -/
  connected : Option Nat
  deriving DecidableEq, Repr

/-- Modelled from the spec: the operations of section 6 on `RtMidiIn`. An open
attempt succeeds when nothing is open yet, the index is in range and the
hardware does not refuse it; otherwise the state is unchanged. -/
def rtMidi : Transport RtMidiIn where
  getPortCount := fun t => t.portNames.length
  getPortName := fun t i => t.portNames.getD i ""
  isPortOpen := fun t => t.connected.isSome
  openPort := fun t n =>
    if t.connected.isNone ∧ n < t.portNames.length ∧ n ∉ t.refused then
      { t with connected := some n }
    else
      t
  closePort := fun t => { t with connected := none }

/-- An instance with every key and value at the declared default `MIDI_MIN`
(`setDefault(MIDI_MIN)` in `describeInContext`), no message shown and no call
made yet. -/
def defaultPlugin (midiIn : σ) (devices : Int) : MidiPlugin σ where
  midiIn := midiIn
  devices := devices
  paramsKey := fun _ => MIDI_MIN
  paramsValue := fun _ => MIDI_MIN
  persistentMessage := none
  calls := []
  setValueCalls := []

/-! ## Lemmas on the router loop -/

section Router

/-- The loop body never writes a key. -/
theorem step_paramsKey (key value : Int) (p : MidiPlugin σ) (i : Fin MIDI_PARAMS) :
    (setInputValueStep key value p i).paramsKey = p.paramsKey := by
  by_cases h : p.paramsKey i = key <;> simp [setInputValueStep, h]

/-- The loop body overwrites the value of the visited slot when its key
matches, and no other value. -/
theorem step_paramsValue (key value : Int) (p : MidiPlugin σ) (i j : Fin MIDI_PARAMS) :
    (setInputValueStep key value p i).paramsValue j =
      if j = i ∧ p.paramsKey i = key then value else p.paramsValue j := by
  by_cases h : p.paramsKey i = key
  · by_cases hji : j = i
    · subst hji
      simp [setInputValueStep, h]
    · simp [setInputValueStep, h, hji, Function.update_noteq hji]
  · simp [setInputValueStep, h]

/-- Running the loop body over any list of slot indices never writes a key. -/
theorem foldl_step_paramsKey (key value : Int) (l : List (Fin MIDI_PARAMS))
    (p : MidiPlugin σ) :
    (l.foldl (setInputValueStep key value) p).paramsKey = p.paramsKey := by
  induction l generalizing p with
  | nil => rfl
  | cons i l ih => rw [List.foldl_cons, ih, step_paramsKey]

/-- Running the loop body over a list of slot indices overwrites exactly the
values of the visited slots whose key matches. -/
theorem foldl_step_paramsValue (key value : Int) (l : List (Fin MIDI_PARAMS))
    (p : MidiPlugin σ) (j : Fin MIDI_PARAMS) :
    (l.foldl (setInputValueStep key value) p).paramsValue j =
      if j ∈ l ∧ p.paramsKey j = key then value else p.paramsValue j := by
  induction l generalizing p with
  | nil => simp
  | cons i l ih =>
    rw [List.foldl_cons, ih, step_paramsKey, step_paramsValue]
    by_cases hj : p.paramsKey j = key
    · by_cases hjl : j ∈ l
      · simp [hj, hjl]
      · by_cases hji : j = i
        · subst hji
          simp [hj]
        · simp [hj, hjl, hji]
    · by_cases hji : j = i
      · subst hji
        simp [hj]
      · simp [hj, hji]

/-- Running the loop body over a list of slot indices calls `setValue` on the
visited slots whose key matches, in the order visited. -/
theorem foldl_step_setValueCalls (key value : Int) (l : List (Fin MIDI_PARAMS))
    (p : MidiPlugin σ) :
    (l.foldl (setInputValueStep key value) p).setValueCalls =
      p.setValueCalls ++
        (l.filter (fun i => decide (p.paramsKey i = key))).map (fun i => (i, value)) := by
  induction l generalizing p with
  | nil => simp
  | cons i l ih =>
    rw [List.foldl_cons, ih, step_paramsKey]
    by_cases h : p.paramsKey i = key
    · simp [setInputValueStep, h]
    · simp [setInputValueStep, h]

/-- Keys after `setInputValue`. -/
theorem setInputValue_paramsKey (p : MidiPlugin σ) (key value : Int) :
    (setInputValue p key value).paramsKey = p.paramsKey :=
  foldl_step_paramsKey key value _ p

/-- Values after `setInputValue`. -/
theorem setInputValue_paramsValue (p : MidiPlugin σ) (key value : Int)
    (j : Fin MIDI_PARAMS) :
    (setInputValue p key value).paramsValue j =
      if p.paramsKey j = key then value else p.paramsValue j := by
  unfold setInputValue
  rw [foldl_step_paramsValue]
  simp [List.mem_finRange]

/-- A message of three bytes or more is decoded and dispatched. -/
theorem inputHandler_of_three (m0 m1 m2 : UChar) (rest : List UChar)
    (p : MidiPlugin σ) :
    inputHandler (m0 :: m1 :: m2 :: rest) p =
      some (setInputValue p (m1.val : Int) (m2.val : Int)) := by
  simp [inputHandler]

/-- The router calls `setValue` exactly on the slots whose key matches, in
slot order, each time with the value it was given. -/
theorem setInputValue_setValueCalls (p : MidiPlugin σ) (key value : Int) :
    (setInputValue p key value).setValueCalls =
      p.setValueCalls ++
        ((List.finRange MIDI_PARAMS).filter (fun i => decide (p.paramsKey i = key))).map
          (fun i => (i, value)) := by
  unfold setInputValue
  exact foldl_step_setValueCalls key value _ p

/-- When the value byte of the message, if there is one, is a 7-bit data byte,
the router keeps every stored value inside `[MIDI_MIN, MIDI_MAX]`. -/
theorem inputHandler_range_of_data_byte (p : MidiPlugin σ) (m : List UChar)
    (hp : ∀ i : Fin MIDI_PARAMS, MIDI_MIN ≤ p.paramsValue i ∧ p.paramsValue i ≤ MIDI_MAX)
    (hm : ∀ v : UChar, m[2]? = some v → v.val ≤ 127) :
    ∃ q : MidiPlugin σ, inputHandler m p = some q ∧
      ∀ i : Fin MIDI_PARAMS, MIDI_MIN ≤ q.paramsValue i ∧ q.paramsValue i ≤ MIDI_MAX := by
  match m, hm with
  | [], _ => exact ⟨p, rfl, hp⟩
  | [_], _ => exact ⟨p, rfl, hp⟩
  | [_, _], _ => exact ⟨p, rfl, hp⟩
  | m0 :: m1 :: m2 :: rest, hm =>
    refine ⟨_, inputHandler_of_three m0 m1 m2 rest p, fun i => ?_⟩
    rw [setInputValue_paramsValue]
    have h2 : m2.val ≤ 127 := hm m2 (by simp)
    split
    · exact ⟨Int.ofNat_nonneg _, Int.ofNat_le.mpr h2⟩
    · exact hp i

end Router

/-! ## Claims on the message router -/

section RouterClaims

/-- C1. For every 3-byte message `m` and every configuration of the 25 slots,
the router returns normally, and afterwards every slot whose key equals `m[1]`
has value `m[2]`, every other slot keeps its previous value, and no key has
changed. The statement is per slot index, so all slots sharing the key are
updated. -/
theorem C1_dispatch_updates_matching_slots (p : MidiPlugin σ) (m0 m1 m2 : UChar) :
    ∃ q : MidiPlugin σ, inputHandler [m0, m1, m2] p = some q ∧
      q.paramsKey = p.paramsKey ∧
      ∀ i : Fin MIDI_PARAMS,
        q.paramsValue i =
          if p.paramsKey i = (m1.val : Int) then (m2.val : Int) else p.paramsValue i :=
  ⟨setInputValue p (m1.val : Int) (m2.val : Int), inputHandler_of_three m0 m1 m2 [] p,
    setInputValue_paramsKey p _ _, fun i => setInputValue_paramsValue p _ _ i⟩

/-- C2. For every message of length 0, 1 or 2 the router callback returns
normally and leaves the instance, hence every key and value, unchanged. -/
theorem C2_short_message_ignored (p : MidiPlugin σ) (m : List UChar)
    (h : m.length < 3) : inputHandler m p = some p := by
  simp [inputHandler, h]

/-- C2 at the two-byte message `[192, 5]`. -/
theorem C2_short_message_ignored_witness :
    ([192, 5] : List UChar).length < 3 ∧
      inputHandler [192, 5] (defaultPlugin () 0) = some (defaultPlugin () 0) :=
  ⟨by decide, C2_short_message_ignored (defaultPlugin () 0) [192, 5] (by decide)⟩

/-- C3, evaluated at the failing input. The default instance has every key
and every value at 0, inside the declared range `[MIDI_MIN, MIDI_MAX]` of the
value parameters. On the three-byte message `[240, 0, 247]` (a system-exclusive
frame, which `ignoreTypes(false, false, false)` lets through) the router
returns normally having called `_paramsValue[i]->setValue(247)` for every slot
`i`, in slot order and with no other call: the value byte reaches the host
unclamped, above `MIDI_MAX`. With the stored value being what `setValue` was
given, slot 0 then holds 247. -/
theorem C3_value_byte_passed_unclamped :
    (∀ i : Fin MIDI_PARAMS,
        MIDI_MIN ≤ (defaultPlugin () 0).paramsValue i ∧
          (defaultPlugin () 0).paramsValue i ≤ MIDI_MAX) ∧
      ∃ q : MidiPlugin Unit, inputHandler [240, 0, 247] (defaultPlugin () 0) = some q ∧
        q.setValueCalls = (List.finRange MIDI_PARAMS).map (fun i => (i, (247 : Int))) ∧
        ¬ (247 : Int) ≤ MIDI_MAX ∧
        q.paramsValue 0 = 247 := by
  refine ⟨by decide, setInputValue (defaultPlugin () 0) 0 247, rfl, by decide, by decide,
    by decide⟩

/-- C9. Two 3-byte messages that agree on bytes 1 and 2 and differ only in
the status byte give the same result on every instance. -/
theorem C9_status_byte_ignored (p : MidiPlugin σ) (s s2 k v : UChar) :
    inputHandler [s, k, v] p = inputHandler [s2, k, v] p := by
  rw [inputHandler_of_three, inputHandler_of_three]

end RouterClaims

/-! ## Claims on the port session -/

section PortSession

/-- With no port enumerated, `openInput` only counts the ports and sets the
message. -/
theorem openInput_of_no_port (T : Transport σ) (p : MidiPlugin σ) (port : Int)
    (h : T.getPortCount p.midiIn = 0) :
    openInput T p port =
      setPersistentMessage (record p MidiCall.getPortCount) "No MIDI input found" := by
  simp [openInput, h, record]

/-- With at least one port enumerated, `openInput` closes the port if one is
open, attempts to open the resolved index, and sets the message when the
transport is not open afterwards. -/
theorem openInput_of_some_port (T : Transport σ) (p : MidiPlugin σ) (port : Int)
    (h : T.getPortCount p.midiIn ≠ 0) :
    openInput T p port =
      { p with
        midiIn :=
          T.openPort (if T.isPortOpen p.midiIn then T.closePort p.midiIn else p.midiIn)
            (toUnsigned (if port = -1 then p.devices else port))
        persistentMessage :=
          if T.isPortOpen
              (T.openPort (if T.isPortOpen p.midiIn then T.closePort p.midiIn else p.midiIn)
                (toUnsigned (if port = -1 then p.devices else port))) then
            p.persistentMessage
          else
            some "MIDI input not connected"
        calls :=
          p.calls ++ [MidiCall.getPortCount, MidiCall.isPortOpen] ++
            (if T.isPortOpen p.midiIn then [MidiCall.closePort] else []) ++
            [MidiCall.openPort (toUnsigned (if port = -1 then p.devices else port)),
              MidiCall.isPortOpen] } := by
  cases ho : T.isPortOpen p.midiIn
  · cases hn : T.isPortOpen
        (T.openPort p.midiIn (toUnsigned (if port = -1 then p.devices else port))) <;>
      simp [openInput, h, ho, hn, record, setPersistentMessage]
  · cases hn : T.isPortOpen
        (T.openPort (T.closePort p.midiIn)
          (toUnsigned (if port = -1 then p.devices else port))) <;>
      simp [openInput, h, ho, hn, record, setPersistentMessage]

/-- C4 fails as stated: with a port open and zero ports enumerated,
`openInput` sets the message "No MIDI input found" and returns with the port
still open. -/
theorem C4_no_device_counterexample :
    rtMidi.getPortCount (defaultPlugin (⟨[], [], some 0⟩ : RtMidiIn) 0).midiIn = 0 ∧
      (openInput rtMidi (defaultPlugin ⟨[], [], some 0⟩ 0) (-1)).persistentMessage =
        some "No MIDI input found" ∧
      rtMidi.isPortOpen (openInput rtMidi (defaultPlugin ⟨[], [], some 0⟩ 0) (-1)).midiIn =
        true := by
  decide

/-- C4, amended. If the transport enumerates zero ports, `openInput` sets the
message "No MIDI input found" and leaves the transport handle as it was: the
session is open afterwards exactly when it was open before. -/
theorem C4_no_device_keeps_session (T : Transport σ) (p : MidiPlugin σ) (port : Int)
    (h : T.getPortCount p.midiIn = 0) :
    (openInput T p port).persistentMessage = some "No MIDI input found" ∧
      (openInput T p port).midiIn = p.midiIn ∧
      T.isPortOpen (openInput T p port).midiIn = T.isPortOpen p.midiIn := by
  rw [openInput_of_no_port T p port h]
  exact ⟨rfl, rfl, rfl⟩

/-- C4, amended, at a closed session with no port: the session is not open
afterwards. -/
theorem C4_no_device_keeps_session_witness :
    rtMidi.getPortCount (defaultPlugin (⟨[], [], none⟩ : RtMidiIn) 0).midiIn = 0 ∧
      (openInput rtMidi (defaultPlugin ⟨[], [], none⟩ 0) 3).persistentMessage =
        some "No MIDI input found" ∧
      (openInput rtMidi (defaultPlugin ⟨[], [], none⟩ 0) 3).midiIn = ⟨[], [], none⟩ ∧
      rtMidi.isPortOpen (openInput rtMidi (defaultPlugin ⟨[], [], none⟩ 0) 3).midiIn =
        false :=
  ⟨by decide,
    C4_no_device_keeps_session rtMidi (defaultPlugin ⟨[], [], none⟩ 0) 3 (by decide)⟩

/-- Calls made by `openInput`, for every transport and instance. -/
theorem openInput_calls (T : Transport σ) (p : MidiPlugin σ) (port : Int) :
    (openInput T p port).calls =
      p.calls ++
        (if T.getPortCount p.midiIn = 0 then
          [MidiCall.getPortCount]
        else
          [MidiCall.getPortCount, MidiCall.isPortOpen] ++
            (if T.isPortOpen p.midiIn then [MidiCall.closePort] else []) ++
            [MidiCall.openPort (toUnsigned (if port = -1 then p.devices else port)),
              MidiCall.isPortOpen]) := by
  by_cases h0 : T.getPortCount p.midiIn = 0
  · simp [openInput_of_no_port T p port h0, h0, record, setPersistentMessage]
  · rw [openInput_of_some_port T p port h0]
    cases ho : T.isPortOpen p.midiIn <;> simp [h0]

/-- A change of the parameter "port" clears the message and runs
`openInput(-1)`. -/
theorem changedParam_port (T : Transport σ) (p : MidiPlugin σ) :
    changedParam T p kParamPort = openInput T (clearPersistentMessage p) (-1) := by
  have h : startsWith kParamPort kParamMidiInput = false := by decide
  simp [changedParam, h]

/-- C5 fails as stated: with zero ports enumerated, the change of "port" calls
`getPortCount` and nothing else; no close and no open is attempted, whether or
not a port is open. -/
theorem C5_reopen_trace_counterexample :
    (changedParam rtMidi (defaultPlugin ⟨[], [], some 0⟩ 0) kParamPort).calls =
        [MidiCall.getPortCount] ∧
      (changedParam rtMidi (defaultPlugin ⟨[], [], none⟩ 0) kParamPort).calls =
        [MidiCall.getPortCount] ∧
      ¬ ∃ n, MidiCall.openPort n ∈
        (changedParam rtMidi (defaultPlugin ⟨[], [], some 0⟩ 0) kParamPort).calls := by
  refine ⟨by decide, by decide, ?_⟩
  have h : (changedParam rtMidi (defaultPlugin ⟨[], [], some 0⟩ 0) kParamPort).calls =
      [MidiCall.getPortCount] := by decide
  rw [h]
  simp

/-- C5, amended. The calls a change of "port" makes on the transport are, in
order: `getPortCount` alone when zero ports are enumerated; otherwise
`getPortCount`, `isPortOpen`, one `closePort` when a port was open and none
when nothing was open, then exactly one `openPort` on the stored selection,
then `isPortOpen`. -/
theorem C5_reopen_trace (T : Transport σ) (p : MidiPlugin σ) :
    (changedParam T p kParamPort).calls =
      p.calls ++
        (if T.getPortCount p.midiIn = 0 then
          [MidiCall.getPortCount]
        else
          [MidiCall.getPortCount, MidiCall.isPortOpen] ++
            (if T.isPortOpen p.midiIn then [MidiCall.closePort] else []) ++
            [MidiCall.openPort (toUnsigned p.devices), MidiCall.isPortOpen]) := by
  rw [changedParam_port, openInput_calls]
  simp [clearPersistentMessage]

/-- C8. Whenever the session is not open after `openInput`, a message is set
on return: "No MIDI input found" when the transport reported zero ports,
"MIDI input not connected" otherwise. -/
theorem C8_not_open_is_reported (T : Transport σ) (p : MidiPlugin σ) (port : Int)
    (h : T.isPortOpen (openInput T p port).midiIn = false) :
    (openInput T p port).persistentMessage =
      some (if T.getPortCount p.midiIn = 0 then "No MIDI input found"
        else "MIDI input not connected") := by
  by_cases h0 : T.getPortCount p.midiIn = 0
  · simp [openInput_of_no_port T p port h0, h0, setPersistentMessage]
  · rw [openInput_of_some_port T p port h0] at h ⊢
    simp only at h
    simp [h, h0]

/-- C8 at a transport whose only port refuses to open, with an index out of
range. -/
theorem C8_not_open_is_reported_witness :
    rtMidi.isPortOpen (openInput rtMidi (defaultPlugin ⟨["USB MIDI"], [0], none⟩ 0) 7).midiIn =
        false ∧
      (openInput rtMidi (defaultPlugin ⟨["USB MIDI"], [0], none⟩ 0) 7).persistentMessage =
        some "MIDI input not connected" :=
  ⟨by decide,
    C8_not_open_is_reported rtMidi (defaultPlugin ⟨["USB MIDI"], [0], none⟩ 0) 7 (by decide)⟩

end PortSession

/-! ## Claims on parameter-change notifications -/

section Notifications

/-- Position 0 is where `rfind(what, 0)` looks: `startsWith` holds exactly when
the first characters of `str` are those of `what`. -/
theorem startsWith_eq (str what : String) :
    startsWith str what =
      (decide (what.length ≤ str.length) && (str.data.take what.length == what.data)) := by
  unfold startsWith rfind
  by_cases h : what.length ≤ str.length
  · by_cases hp : (str.data.take what.length == what.data) = true
    · simp [h, hp, List.range_succ]
    · simp [h, hp, List.range_succ]
  · simp [h]

/-- A key parameter name starts with `kParamMidiInput`. -/
theorem startsWith_input (nb : String) :
    startsWith (kParamMidiInput ++ nb) kParamMidiInput = true := by
  have hl : kParamMidiInput.length = 5 := by decide
  have hd : kParamMidiInput.data = ['i', 'n', 'p', 'u', 't'] := rfl
  rw [startsWith_eq, String.length_append, String.data_append, hl, hd]
  simp

/-- A value parameter name does not start with `kParamMidiInput`. -/
theorem startsWith_value (nb : String) :
    startsWith (kParamMidiInputValue ++ nb) kParamMidiInput = false := by
  have hl : kParamMidiInput.length = 5 := by decide
  have hd : kParamMidiInput.data = ['i', 'n', 'p', 'u', 't'] := rfl
  have hv : kParamMidiInputValue.data = ['v', 'a', 'l', 'u', 'e'] := rfl
  rw [startsWith_eq, String.data_append, hl, hd, hv]
  simp

/-- A value parameter name is not the name of the device-selection parameter. -/
theorem value_ne_port (nb : String) : kParamMidiInputValue ++ nb ≠ kParamPort := by
  intro h
  have hd := congrArg String.data h
  have hv : kParamMidiInputValue.data = ['v', 'a', 'l', 'u', 'e'] := rfl
  have hp : kParamPort.data = ['p', 'o', 'r', 't'] := rfl
  rw [String.data_append, hv, hp] at hd
  simp at hd

/-- C7. For every prior state, hence every prior message, and every slot
index `i`: after a change of the key parameter `input<i>` the message is
"MIDI input not connected" when the port is not open and cleared when it is
open; after a change of the value parameter `value<i>` the message is
cleared. -/
theorem C7_message_after_slot_change (T : Transport σ) (p : MidiPlugin σ)
    (i : Fin MIDI_PARAMS) :
    (changedParam T p (kParamMidiInput ++ istring i.val)).persistentMessage =
        (if T.isPortOpen p.midiIn then none else some "MIDI input not connected") ∧
      (changedParam T p (kParamMidiInputValue ++ istring i.val)).persistentMessage =
        none := by
  constructor
  · cases ho : T.isPortOpen p.midiIn <;>
      simp [changedParam, startsWith_input, ho, clearPersistentMessage, record,
        setPersistentMessage]
  · simp [changedParam, startsWith_value, value_ne_port, clearPersistentMessage]

end Notifications

/-! ## Claims on device enumeration -/

section Enumeration

/-- Appending one element per step is mapping. -/
theorem foldl_push_back {α β : Type} (f : α → β) (l : List α) (init : List β) :
    l.foldl (fun result a => result ++ [f a]) init = init ++ l.map f := by
  induction l generalizing init with
  | nil => simp
  | cons a l ih => simp [ih]

/-- Appending the elements that pass a test is filtering. -/
theorem foldl_appendOption (l : List String) (init : List String) :
    l.foldl (fun options name => if name ≠ "" then options ++ [name] else options) init =
      init ++ l.filter (fun name => decide (name ≠ "")) := by
  induction l generalizing init with
  | nil => simp
  | cons a l ih =>
    rw [List.foldl_cons, ih]
    by_cases h : a = ""
    · simp [h]
    · simp [h]

/-- Function `getDevices` returns the names of the ports `0 .. count-1`, in
order. -/
theorem getDevices_eq (T : Transport σ) (midi : σ) :
    getDevices T midi = (List.range (T.getPortCount midi)).map (T.getPortName midi) := by
  simp [getDevices, foldl_push_back]

/-- On the concrete transport the enumerated names are the list of port names. -/
theorem getDevices_rtMidi (t : RtMidiIn) : getDevices rtMidi t = t.portNames := by
  rw [getDevices_eq]
  apply List.ext_getElem
  · simp [rtMidi]
  · intro i h1 h2
    simp only [List.length_map, List.length_range] at h1
    have h3 : i < t.portNames.length := h1
    simp [rtMidi, List.getD_eq_getElem?_getD, List.getElem?_eq_getElem h3]

/-- C6. The options presented in the device-selection control are the
enumerated port names (ports `0 .. count-1`) with the empty names filtered
out, in their original order; on the concrete transport they are the
non-empty entries of its name list, and the names `["USB MIDI", ""]` present
`["USB MIDI"]` only. -/
theorem C6_presented_devices (T : Transport σ) (midi : σ) (t : RtMidiIn) :
    describeInContext T midi =
        ((List.range (T.getPortCount midi)).map (T.getPortName midi)).filter
          (fun name => decide (name ≠ "")) ∧
      describeInContext rtMidi t = t.portNames.filter (fun name => decide (name ≠ "")) ∧
      describeInContext rtMidi ⟨["USB MIDI", ""], [], none⟩ = ["USB MIDI"] := by
  refine ⟨?_, ?_, ?_⟩
  · simp only [describeInContext, foldl_appendOption, getDevices_eq, List.nil_append]
  · simp only [describeInContext, foldl_appendOption, getDevices_rtMidi, List.nil_append]
  · decide

/-- C10. There is a port enumeration, an empty-named port before a named one,
in which the named device stands at position 0 of the presented list while
its port index is 1; with that position stored as the selection,
`openInput(-1)` passes 0 to the transport and opens port 0, which is not the
selected device. -/
theorem C10_selection_index_diverges :
    ∃ (t : RtMidiIn) (position index : Nat) (name : String),
      t.portNames = ["", name] ∧ name ≠ "" ∧
      (describeInContext rtMidi t)[position]? = some name ∧
      t.portNames[index]? = some name ∧
      position ≠ index ∧
      (openInput rtMidi (defaultPlugin t (position : Int)) (-1)).calls =
        [MidiCall.getPortCount, MidiCall.isPortOpen, MidiCall.openPort position,
          MidiCall.isPortOpen] ∧
      (openInput rtMidi (defaultPlugin t (position : Int)) (-1)).midiIn.connected =
        some position ∧
      rtMidi.getPortName t position ≠ name :=
  ⟨⟨["", "USB MIDI"], [], none⟩, 0, 1, "USB MIDI", by decide⟩

end Enumeration

end MidiOFX
